import Mathlib

/-!
Shallow embedding of the authentication, session-lifecycle and quota core of the
SIH2025 backend. The definitions below are translated from
src/backend/src/types/auth.types.ts (controllers), src/backend/src/middleware/auth.middleware.ts
(access-control gate), src/backend/src/models/user.model.ts (user document, quota
methods) and src/backend/src/validations/auth.validations.ts (validated request
shapes). Times are Unix seconds; cookie max-ages are in milliseconds, as in the
source. The Mongo store is modelled as a list of account documents; findById and
findOne return the first match, findByIdAndUpdate rewrites the first document
whose _id matches.
-/

namespace SIH

/-- Subscription tiers, the subscriptionType enum of user.model.ts. -/
inductive SubscriptionType where
  | free
  | basic
  | premium
  | enterprise
deriving DecidableEq, Repr

/-- API usage categories, the apiType union used by the quota methods of user.model.ts. -/
inductive ApiType where
  | cropRecommendations
  | imageProcessing
  | chatMessages
deriving DecidableEq, Repr

/-- The maxLimits subdocument of an apiUsage entry (user.model.ts). -/
structure MaxLimits where
  cropRecommendations : Nat
  imageProcessing : Nat
  chatMessages : Nat
deriving DecidableEq, Repr

/-- One apiUsage array entry; month is the YYYY-MM calendar key (user.model.ts). -/
structure UsageEntry where
  month : String
  cropRecommendations : Nat
  imageProcessing : Nat
  chatMessages : Nat
  maxLimits : MaxLimits
deriving DecidableEq, Repr

/-- The notifications preference subdocument (user.model.ts). -/
structure NotificationPrefs where
  email : Bool
  sms : Bool
  push : Bool
  weatherAlerts : Bool
  cropRecommendations : Bool
  marketPrices : Bool
deriving DecidableEq, Repr

/-- The dataSharing preference subdocument (user.model.ts). -/
structure DataSharingPrefs where
  researchPurposes : Bool
  governmentSchemes : Bool
  marketAnalytics : Bool
deriving DecidableEq, Repr

/-- The preferences subdocument (user.model.ts). -/
structure Preferences where
  units : String
  notifications : NotificationPrefs
  dataSharing : DataSharingPrefs
deriving DecidableEq, Repr

/-- Farm coordinates; the latitude and longitude magnitudes never enter any claim,
so plain integers stand in for the numeric values. -/
structure Coordinates where
  latitude : Int
  longitude : Int
deriving DecidableEq, Repr

/-- The farmLocation subdocument (user.model.ts). -/
structure FarmLocation where
  state : String
  district : String
  pincode : String
  village : Option String
  coordinates : Option Coordinates
deriving DecidableEq, Repr

/-- One loginHistory entry (user.model.ts). -/
structure LoginEntry where
  timestamp : Nat
  ipAddress : String
  userAgent : String
  location : String
deriving DecidableEq, Repr

/-- An access token as produced by jwt.sign in generateTokens (auth.types.ts):
claims id, email, username, farmerType, subscriptionType plus iat and exp, signed
with the access secret. HS256 signing is deterministic, so the compact token
string is fully determined by these fields and token equality is field equality. -/
structure AToken where
  id : Nat
  email : String
  username : String
  farmerType : String
  subscriptionType : SubscriptionType
  iat : Nat
  exp : Nat
  secret : String
deriving DecidableEq, Repr

/-- A refresh token as produced by jwt.sign in generateTokens (auth.types.ts):
claims id and email plus iat and exp, signed with the refresh secret. -/
structure RToken where
  id : Nat
  email : String
  iat : Nat
  exp : Nat
  secret : String
deriving DecidableEq, Repr

/-- The Account document (user.model.ts), restricted to the fields the
authentication and quota core reads or writes. The AI/ML history arrays and
sensor data are pass-through data touched by none of the modelled operations. -/
structure Account where
  id : Nat
  email : String
  password : String
  username : String
  firstName : String
  lastName : String
  phoneNumber : Option String
  dateOfBirth : Option String
  farmerType : String
  farmSize : Option Nat
  primaryCrops : Option (List String)
  farmLocation : Option FarmLocation
  farmingExperience : Option Nat
  educationLevel : Option String
  preferredLanguage : String
  preferences : Preferences
  subscriptionType : SubscriptionType
  subscriptionExpiry : Option Nat
  apiUsage : List UsageEntry
  isEmailVerified : Bool
  isPhoneVerified : Bool
  isFarmerVerified : Bool
  lastLogin : Option Nat
  loginHistory : List LoginEntry
  refreshTokens : List RToken
  passwordResetToken : Option String
  passwordResetExpiry : Option Nat
deriving DecidableEq, Repr

/-- Mongo User.findById: lookup by the unique _id, first match in the list model. -/
def findById (store : List Account) (i : Nat) : Option Account :=
  store.find? (fun u => u.id == i)

/-- Mongo User.findByIdAndUpdate: rewrite the first account whose _id matches. -/
def updateById (store : List Account) (i : Nat) (f : Account → Account) : List Account :=
  match store with
  | [] => []
  | u :: rest => if u.id == i then f u :: rest else u :: updateById rest i f

/-- Stand-in for bcrypt.hash with cost 12: the real hash is salted and one-way;
every claim below depends only on the relation compare p h = (h = hash p), so a
deterministic injective tag is an adequate model of the hash. -/
def bcryptHash (p : String) : String :=
  String.append ("bcrypt-2a-12-") p

/-- Stand-in for bcrypt.compare. -/
def bcryptCompare (p h : String) : Bool :=
  h == bcryptHash p

/-- JWT_SECRET default (auth.types.ts). -/
def jwtSecret : String := "your-super-secret-jwt-key"

/-- JWT_REFRESH_SECRET default (auth.types.ts). -/
def jwtRefreshSecret : String := "your-super-secret-refresh-key"

/-- JWT_EXPIRES_IN default of 15m, in seconds. -/
def accessExpirySeconds : Nat := 15 * 60

/-- JWT_REFRESH_EXPIRES_IN default of 7d, in seconds. -/
def refreshExpirySeconds : Nat := 7 * 24 * 60 * 60

/-- generateTokens (auth.types.ts lines 330 to 348): one access and one refresh
token signed at the clock instant now; the lifetimes are the fixed defaults and
do not depend on any request flag. -/
def generateTokens (u : Account) (now : Nat) : AToken × RToken :=
  (⟨u.id, u.email, u.username, u.farmerType, u.subscriptionType,
    now, now + accessExpirySeconds, jwtSecret⟩,
   ⟨u.id, u.email, now, now + refreshExpirySeconds, jwtRefreshSecret⟩)

/-- Error values thrown by jsonwebtoken verify: a malformed or wrongly signed
token raises JsonWebTokenError, an expired one raises TokenExpiredError. In the
jsonwebtoken library TokenExpiredError is a subclass of JsonWebTokenError, which
the two instanceof predicates below record. -/
inductive JwtErr where
  | malformed
  | expired
deriving DecidableEq, Repr

/-- instanceof jwt.JsonWebTokenError: true for every verification error, because
TokenExpiredError extends JsonWebTokenError in the jsonwebtoken library. -/
def JwtErr.isJsonWebTokenError : JwtErr → Bool :=
  fun _ => true

/-- instanceof jwt.TokenExpiredError. -/
def JwtErr.isTokenExpiredError : JwtErr → Bool :=
  fun e => e == JwtErr.expired

/-- Decoded access-token payload (TokenPayload in auth.types.ts). -/
structure TokenPayload where
  id : Nat
  email : String
  username : String
  farmerType : String
  subscriptionType : SubscriptionType
deriving DecidableEq, Repr

/-- Decoded refresh-token payload (RefreshTokenPayload in auth.types.ts). -/
structure RefreshTokenPayload where
  id : Nat
  email : String
deriving DecidableEq, Repr

/-- jwt.verify with the access secret: signature check first, then the expiry
check against the clock in seconds; at or past exp the token is expired. Pure,
no store lookup. -/
def verifyAccessJwt (t : AToken) (now : Nat) : Except JwtErr TokenPayload :=
  if t.secret ≠ jwtSecret then Except.error JwtErr.malformed
  else if t.exp ≤ now then Except.error JwtErr.expired
  else Except.ok ⟨t.id, t.email, t.username, t.farmerType, t.subscriptionType⟩

/-- jwt.verify with the refresh secret. -/
def verifyRefreshJwt (t : RToken) (now : Nat) : Except JwtErr RefreshTokenPayload :=
  if t.secret ≠ jwtRefreshSecret then Except.error JwtErr.malformed
  else if t.exp ≤ now then Except.error JwtErr.expired
  else Except.ok ⟨t.id, t.email⟩

/-- An AppError as raised throughout the controllers: message, HTTP status and
machine error code, which the response envelope exposes verbatim. -/
structure AppErr where
  message : String
  status : Nat
  errorCode : String
deriving DecidableEq, Repr

/-- The req.user object the gate attaches on success (auth.middleware.ts). -/
structure AuthedUser where
  id : Nat
  email : String
  role : String
deriving DecidableEq, Repr

/-- Catch clause of authenticateToken (auth.middleware.ts lines 62 to 70),
translated branch for branch: the instanceof JsonWebTokenError test comes first
and also matches TokenExpiredError values, so the ACCESS_TOKEN_EXPIRED branch is
unreachable; the trailing rethrow cannot trigger for a verification error and is
marked by a sentinel. -/
def catchAccessJwtErr (e : JwtErr) : AppErr :=
  if e.isJsonWebTokenError then ⟨"Invalid access token", 401, "INVALID_ACCESS_TOKEN"⟩
  else if e.isTokenExpiredError then ⟨"Access token expired", 401, "ACCESS_TOKEN_EXPIRED"⟩
  else ⟨"rethrown", 500, "RETHROWN"⟩

/-- authenticateToken (auth.middleware.ts lines 23 to 71). The token argument is
the bearer token already extracted from header, cookie or body; none models a
request carrying no token. The USER_NOT_FOUND AppError thrown inside the try
block is not a jsonwebtoken error and passes through the catch unchanged. -/
def authenticateToken (store : List Account) (token : Option AToken) (now : Nat) :
    Except AppErr AuthedUser :=
  match token with
  | none => Except.error ⟨"Access token is required", 401, "NO_ACCESS_TOKEN"⟩
  | some t =>
    match verifyAccessJwt t now with
    | Except.error e => Except.error (catchAccessJwtErr e)
    | Except.ok decoded =>
      match findById store decoded.id with
      | none => Except.error ⟨"User not found", 401, "USER_NOT_FOUND"⟩
      | some user => Except.ok ⟨decoded.id, decoded.email, user.farmerType⟩

/-- Catch clause of authenticateRefreshToken (auth.middleware.ts lines 105 to 113),
same dead-branch structure as the access variant. -/
def catchRefreshJwtErr (e : JwtErr) : AppErr :=
  if e.isJsonWebTokenError then ⟨"Invalid refresh token", 401, "INVALID_REFRESH_TOKEN"⟩
  else if e.isTokenExpiredError then ⟨"Refresh token expired", 401, "REFRESH_TOKEN_EXPIRED"⟩
  else ⟨"rethrown", 500, "RETHROWN"⟩

/-- authenticateRefreshToken (auth.middleware.ts lines 77 to 114): cryptographic
verification plus membership of the presented token in the refreshTokens set of
the account the payload names. -/
def authenticateRefreshToken (store : List Account) (token : Option RToken) (now : Nat) :
    Except AppErr AuthedUser :=
  match token with
  | none => Except.error ⟨"Refresh token is required", 401, "NO_REFRESH_TOKEN"⟩
  | some t =>
    match verifyRefreshJwt t now with
    | Except.error e => Except.error (catchRefreshJwtErr e)
    | Except.ok decoded =>
      match store.find? (fun u => decide (u.id = decoded.id ∧ t ∈ u.refreshTokens)) with
      | none => Except.error ⟨"Invalid refresh token", 401, "INVALID_REFRESH_TOKEN"⟩
      | some user => Except.ok ⟨decoded.id, decoded.email, user.farmerType⟩

/-- Cookie attributes set by the controllers (auth.types.ts); secure is false
under the development NODE_ENV default. -/
structure CookieOpts where
  httpOnly : Bool
  secure : Bool
  sameSiteStrict : Bool
  maxAgeMs : Nat
deriving DecidableEq, Repr

/-- The pair of cookies a token-issuing response sets. -/
structure SetCookies where
  accessCookie : CookieOpts
  refreshCookie : CookieOpts
deriving DecidableEq, Repr

/-- setTokenCookies (auth.types.ts lines 351 to 365): 15 minute access cookie,
7 day refresh cookie. -/
def setTokenCookies : SetCookies :=
  ⟨⟨true, false, true, 15 * 60 * 1000⟩, ⟨true, false, true, 7 * 24 * 60 * 60 * 1000⟩⟩

/-- The rememberMe branch of signIn (auth.types.ts lines 550 to 562): 30 day
refresh cookie, access cookie still 15 minutes. -/
def rememberMeCookies : SetCookies :=
  ⟨⟨true, false, true, 15 * 60 * 1000⟩, ⟨true, false, true, 30 * 24 * 60 * 60 * 1000⟩⟩

/-- The data of a successful signIn response together with the updated store and
the cookies set on the response. -/
structure SignInResult where
  store : List Account
  accessToken : AToken
  refreshToken : RToken
  cookies : SetCookies
  expiresIn : Nat
deriving DecidableEq, Repr

/-- The single error value signIn raises for an unknown email and for a password
mismatch alike (auth.types.ts lines 526 to 534). -/
def invalidCredentialsErr : AppErr :=
  ⟨"Invalid email or password", 401, "INVALID_CREDENTIALS"⟩

/-- signIn controller (auth.types.ts lines 517 to 595): find by email, compare
password, issue and persist a token pair, append a login-history entry, set
cookies whose refresh max-age alone depends on rememberMe. -/
def signIn (store : List Account) (email password : String) (rememberMe : Bool)
    (now : Nat) (login : LoginEntry) : Except AppErr SignInResult :=
  match store.find? (fun u => u.email == email) with
  | none => Except.error invalidCredentialsErr
  | some user =>
    if bcryptCompare password user.password = false then Except.error invalidCredentialsErr
    else
      let pair := generateTokens user now
      let store1 := updateById store user.id
        (fun u => { u with refreshTokens := u.refreshTokens ++ [pair.2] })
      let store2 := updateById store1 user.id
        (fun u => { u with loginHistory := u.loginHistory ++ [login], lastLogin := some now })
      let cookies := if rememberMe then rememberMeCookies else setTokenCookies
      Except.ok ⟨store2, pair.1, pair.2, cookies, 15 * 60⟩

/-- A validated signUpSchema payload (auth.validations.ts): confirmPassword is
consumed by validation and the remaining fields are the account seed data. -/
structure SignUpData where
  email : String
  password : String
  username : String
  firstName : String
  lastName : String
  phoneNumber : Option String
  dateOfBirth : Option String
  farmerType : String
  farmSize : Option Nat
  primaryCrops : Option (List String)
  farmLocation : Option FarmLocation
  farmingExperience : Option Nat
  educationLevel : Option String
  preferredLanguage : String
  subscriptionType : SubscriptionType
deriving DecidableEq, Repr

/-- The preferences object the signUp controller builds inline (auth.types.ts
lines 446 to 461). -/
def signUpPreferences : Preferences :=
  ⟨"metric", ⟨true, false, true, true, true, true⟩, ⟨false, true, false⟩⟩

/-- The user document User.create builds in signUp (auth.types.ts lines 437 to
468): hashed password, empty refreshTokens, apiUsage and loginHistory, all
verification flags false. -/
def createAccount (d : SignUpData) (newId : Nat) : Account :=
  { id := newId
    email := d.email
    password := bcryptHash d.password
    username := d.username
    firstName := d.firstName
    lastName := d.lastName
    phoneNumber := d.phoneNumber
    dateOfBirth := d.dateOfBirth
    farmerType := d.farmerType
    farmSize := d.farmSize
    primaryCrops := d.primaryCrops
    farmLocation := d.farmLocation
    farmingExperience := d.farmingExperience
    educationLevel := d.educationLevel
    preferredLanguage := d.preferredLanguage
    preferences := signUpPreferences
    subscriptionType := d.subscriptionType
    subscriptionExpiry := none
    apiUsage := []
    isEmailVerified := false
    isPhoneVerified := false
    isFarmerVerified := false
    lastLogin := none
    loginHistory := []
    refreshTokens := []
    passwordResetToken := none
    passwordResetExpiry := none }

/-- The data of a successful signUp response together with the updated store. -/
structure SignUpResult where
  store : List Account
  accessToken : AToken
  refreshToken : RToken
  cookies : SetCookies
  expiresIn : Nat
deriving DecidableEq, Repr

/-- Creation path of the signUp controller, reached when the conflict check
passes: create the document, issue tokens, push the refresh token, push the
login-history entry and set lastLogin (auth.types.ts lines 432 to 513). The
Mongo create appends the new document; newId models the generated _id. -/
def signUpCreate (store : List Account) (d : SignUpData) (newId now : Nat)
    (login : LoginEntry) : Except AppErr SignUpResult :=
  let user := createAccount d newId
  let store0 := store ++ [user]
  let pair := generateTokens user now
  let store1 := updateById store0 newId
    (fun u => { u with refreshTokens := u.refreshTokens ++ [pair.2] })
  let store2 := updateById store1 newId
    (fun u => { u with loginHistory := u.loginHistory ++ [login], lastLogin := some now })
  Except.ok ⟨store2, pair.1, pair.2, setTokenCookies, 15 * 60⟩

/-- signUp controller (auth.types.ts lines 409 to 514): conflict check on email
or username against the existing store, then the creation path. -/
def signUp (store : List Account) (d : SignUpData) (newId now : Nat)
    (login : LoginEntry) : Except AppErr SignUpResult :=
  match store.find? (fun u => u.email == d.email || u.username == d.username) with
  | some existing =>
    if existing.email == d.email then
      Except.error ⟨"User with this email already exists", 409, "EMAIL_EXISTS"⟩
    else if existing.username == d.username then
      Except.error ⟨"Username already taken", 409, "USERNAME_EXISTS"⟩
    else signUpCreate store d newId now login
  | none => signUpCreate store d newId now login

/-- The data of a successful refresh response together with the updated store. -/
structure RefreshResult where
  store : List Account
  accessToken : AToken
  refreshToken : RToken
  cookies : SetCookies
  expiresIn : Nat
deriving DecidableEq, Repr

/-- The INVALID_REFRESH_TOKEN error of the refresh controller. -/
def invalidRefreshErr : AppErr :=
  ⟨"Invalid refresh token", 401, "INVALID_REFRESH_TOKEN"⟩

/-- The error handleDbOperation wraps an unrecognized MongoDB error into
(asyncHandler.ts lines 250 to 256, with entityName User). -/
def databaseErr : AppErr :=
  ⟨"Database operation failed for User", 500, "DATABASE_ERROR"⟩

/-- refreshToken controller (auth.types.ts lines 782 to 836). Verification
failures land in a catch that only tests instanceof JsonWebTokenError, which also
matches TokenExpiredError, so every verification failure yields
INVALID_REFRESH_TOKEN; the INVALID_REFRESH_TOKEN AppError thrown for a
non-member token is rethrown by that catch unchanged. On the path where the
token verifies and is a member, the rotation findByIdAndUpdate places both a
pull of the presented token and a push of the fresh one on the same
refreshTokens path in one update document; MongoDB rejects two update operators
on one path (ConflictingUpdateOperators), so the update throws before anything
is written, handleDbOperation wraps the unrecognized error as the 500
DATABASE_ERROR AppError, and the catch rethrows it unchanged: no token is ever
removed from or added to the set and the success response is never sent. -/
def refreshTokenController (store : List Account) (presented : Option RToken) (now : Nat) :
    Except AppErr RefreshResult :=
  match presented with
  | none => Except.error ⟨"Refresh token not provided", 401, "NO_REFRESH_TOKEN"⟩
  | some tok =>
    match verifyRefreshJwt tok now with
    | Except.error e =>
      Except.error (if e.isJsonWebTokenError then invalidRefreshErr else ⟨"rethrown", 500, "RETHROWN"⟩)
    | Except.ok decoded =>
      match store.find? (fun u => decide (u.id = decoded.id ∧ tok ∈ u.refreshTokens)) with
      | none => Except.error invalidRefreshErr
      | some _user => Except.error databaseErr

/-- changePassword controller (auth.types.ts lines 658 to 702), with the
authenticated user id already extracted by the gate: compare the supplied
current password, then replace the hash and clear the whole refreshTokens set. -/
def changePassword (store : List Account) (userId : Nat) (currentPassword newPassword : String) :
    Except AppErr (List Account) :=
  match findById store userId with
  | none => Except.error ⟨"User not found", 404, "USER_NOT_FOUND"⟩
  | some user =>
    if bcryptCompare currentPassword user.password = false then
      Except.error ⟨"Current password is incorrect", 400, "INVALID_CURRENT_PASSWORD"⟩
    else
      Except.ok (updateById store userId
        (fun u => { u with password := bcryptHash newPassword, refreshTokens := [] }))

/-- The findOne filter of resetPassword (auth.types.ts lines 748 to 754):
passwordResetToken equals the presented token and passwordResetExpiry is
strictly in the future; a document without an expiry never satisfies the gt
comparison. -/
def resetTokenMatches (u : Account) (token : String) (now : Nat) : Bool :=
  u.passwordResetToken == some token &&
    (match u.passwordResetExpiry with
     | some e => decide (now < e)
     | none => false)

/-- The INVALID_RESET_TOKEN error of the resetPassword controller. -/
def invalidResetErr : AppErr :=
  ⟨"Invalid or expired reset token", 400, "INVALID_RESET_TOKEN"⟩

/-- resetPassword controller (auth.types.ts lines 744 to 779). The success
update passes password and refreshTokens as defined values and
passwordResetToken and passwordResetExpiry as the value undefined; Mongoose 6
and later always strips undefined keys from update documents (the user model
uses the three-parameter Model typing that exists from Mongoose 6 on), so the
applied update writes only the new password hash and the emptied refreshTokens
set, and the stored reset token and expiry stay in place. -/
def resetPassword (store : List Account) (token newPassword : String) (now : Nat) :
    Except AppErr (List Account) :=
  match store.find? (fun u => resetTokenMatches u token now) with
  | none => Except.error invalidResetErr
  | some user =>
    Except.ok (updateById store user.id
      (fun u => { u with
        password := bcryptHash newPassword
        refreshTokens := [] }))

/-- A validated updateProfileSchema payload (auth.validations.ts lines 123 to
176). The zod object strips unknown keys, so exactly these optional profile
fields can reach the controller; credentials, tokens, subscription and usage
fields are not part of the schema. -/
structure UpdateProfileData where
  firstName : Option String
  lastName : Option String
  phoneNumber : Option String
  dateOfBirth : Option String
  farmerType : Option String
  farmSize : Option Nat
  primaryCrops : Option (List String)
  farmLocation : Option FarmLocation
  farmingExperience : Option Nat
  educationLevel : Option String
  preferredLanguage : Option String
  preferences : Option Preferences
deriving DecidableEq, Repr

/-- Set-semantics for an optional account field: a defined update value replaces
the stored value, an undefined one is dropped from the set document. -/
def setOpt {α : Type} (new : Option α) (old : Option α) : Option α :=
  match new with
  | some v => some v
  | none => old

/-- Set-semantics for a required account field. -/
def setReq {α : Type} (new : Option α) (old : α) : α :=
  match new with
  | some v => v
  | none => old

/-- The set document applied by updateProfile (auth.types.ts lines 631 to 644):
undefined values are removed and the remaining validated fields are written. -/
def applyProfileSet (u : Account) (d : UpdateProfileData) : Account :=
  { u with
    firstName := setReq d.firstName u.firstName
    lastName := setReq d.lastName u.lastName
    phoneNumber := setOpt d.phoneNumber u.phoneNumber
    dateOfBirth := setOpt d.dateOfBirth u.dateOfBirth
    farmerType := setReq d.farmerType u.farmerType
    farmSize := setOpt d.farmSize u.farmSize
    primaryCrops := setOpt d.primaryCrops u.primaryCrops
    farmLocation := setOpt d.farmLocation u.farmLocation
    farmingExperience := setOpt d.farmingExperience u.farmingExperience
    educationLevel := setOpt d.educationLevel u.educationLevel
    preferredLanguage := setReq d.preferredLanguage u.preferredLanguage
    preferences := setReq d.preferences u.preferences }

/-- updateProfile controller (auth.types.ts lines 623 to 655). -/
def updateProfile (store : List Account) (userId : Nat) (d : UpdateProfileData) :
    Except AppErr (List Account) :=
  match findById store userId with
  | none => Except.error ⟨"User not found", 404, "USER_NOT_FOUND"⟩
  | some _ => Except.ok (updateById store userId (fun u => applyProfileSet u d))

/-- Tier ceiling table of the currentApiUsage virtual (user.model.ts lines 643
to 662). -/
def virtualMaxLimits (t : SubscriptionType) : MaxLimits :=
  match t with
  | SubscriptionType.free => ⟨10, 5, 50⟩
  | SubscriptionType.basic => ⟨50, 25, 200⟩
  | SubscriptionType.premium => ⟨200, 100, 1000⟩
  | SubscriptionType.enterprise => ⟨1000, 500, 5000⟩

/-- The currentApiUsage virtual (user.model.ts lines 643 to 662): the apiUsage
entry of the current calendar month if present, else a zero entry with the
tier-derived ceilings. currentMonth is the YYYY-MM key computed from the clock. -/
def currentApiUsage (u : Account) (currentMonth : String) : UsageEntry :=
  match u.apiUsage.find? (fun e => e.month == currentMonth) with
  | some e => e
  | none => ⟨currentMonth, 0, 0, 0, virtualMaxLimits u.subscriptionType⟩

/-- Projection of a usage entry onto one category counter. -/
def UsageEntry.counter (e : UsageEntry) (t : ApiType) : Nat :=
  match t with
  | ApiType.cropRecommendations => e.cropRecommendations
  | ApiType.imageProcessing => e.imageProcessing
  | ApiType.chatMessages => e.chatMessages

/-- Projection of a maxLimits subdocument onto one category ceiling. -/
def MaxLimits.limit (m : MaxLimits) (t : ApiType) : Nat :=
  match t with
  | ApiType.cropRecommendations => m.cropRecommendations
  | ApiType.imageProcessing => m.imageProcessing
  | ApiType.chatMessages => m.chatMessages

/-- hasExceededAPILimit (user.model.ts lines 672 to 675): the current counter
has reached the ceiling in effect. -/
def hasExceededAPILimit (u : Account) (currentMonth : String) (t : ApiType) : Bool :=
  decide ((currentApiUsage u currentMonth).maxLimits.limit t ≤
    (currentApiUsage u currentMonth).counter t)

/-- In-place increment of one category counter of an entry. -/
def UsageEntry.bump (e : UsageEntry) (t : ApiType) : UsageEntry :=
  match t with
  | ApiType.cropRecommendations => { e with cropRecommendations := e.cropRecommendations + 1 }
  | ApiType.imageProcessing => { e with imageProcessing := e.imageProcessing + 1 }
  | ApiType.chatMessages => { e with chatMessages := e.chatMessages + 1 }

/-- Rewrite the element at one index of the apiUsage array, as the indexed
assignment in incrementAPIUsage does. -/
def modifyAt (l : List UsageEntry) (i : Nat) (f : UsageEntry → UsageEntry) : List UsageEntry :=
  match l, i with
  | [], _ => []
  | x :: xs, 0 => f x :: xs
  | x :: xs, Nat.succ n => x :: modifyAt xs n f

/-- The new month entry incrementAPIUsage pushes when the current month has no
entry yet: 1 for the incremented category, 0 for the others, ceilings taken from
the currentApiUsage virtual at creation. -/
def freshUsageEntry (u : Account) (m : String) (t : ApiType) : UsageEntry :=
  ⟨m,
   if t = ApiType.cropRecommendations then 1 else 0,
   if t = ApiType.imageProcessing then 1 else 0,
   if t = ApiType.chatMessages then 1 else 0,
   (currentApiUsage u m).maxLimits⟩

/-- incrementAPIUsage (user.model.ts lines 678 to 695): an in-memory mutation of
the whole user document, findIndex on the month key then push or in-place
increment. -/
def incrementAPIUsage (u : Account) (m : String) (t : ApiType) : Account :=
  match u.apiUsage.findIdx? (fun e => e.month == m) with
  | none => { u with apiUsage := u.apiUsage ++ [freshUsageEntry u m t] }
  | some i => { u with apiUsage := modifyAt u.apiUsage i (fun e => e.bump t) }

/-- One scheduler event of the request-parallel execution model of spec section
5: each request loads the whole user document and later writes back the document
produced by incrementAPIUsage on its own snapshot, which is the shape the
document-method implementation forces. -/
inductive RaceStep where
  | read (i : Nat)
  | write (i : Nat)
deriving DecidableEq, Repr

/-- The durable document plus the per-request snapshots. -/
structure RaceState where
  db : Account
  snaps : List (Option Account)
deriving Repr

/-- Apply one scheduler event. -/
def raceStep (m : String) (t : ApiType) (s : RaceState) (ev : RaceStep) : RaceState :=
  match ev with
  | RaceStep.read i => { s with snaps := s.snaps.set i (some s.db) }
  | RaceStep.write i =>
    match s.snaps[i]? with
    | some (some snap) => { s with db := incrementAPIUsage snap m t }
    | _ => s

/-- Run n concurrent increment requests under an interleaving schedule and
return the final durable document. -/
def runRace (m : String) (t : ApiType) (a : Account) (n : Nat) (sched : List RaceStep) : Account :=
  (sched.foldl (raceStep m t) ⟨a, List.replicate n none⟩).db

/-- Abbreviation for incrementing the cropRecommendations counter of one month. -/
def incrCrop (m : String) (v : Account) : Account :=
  incrementAPIUsage v m ApiType.cropRecommendations

/-- Whether a controller outcome is a success response. -/
def exOk {α : Type} : Except AppErr α → Bool :=
  fun r => match r with
  | Except.ok _ => true
  | Except.error _ => false

/-- The errorCode field of an error outcome. -/
def errCodeOf {α : Type} : Except AppErr α → Option String :=
  fun r => match r with
  | Except.error e => some e.errorCode
  | Except.ok _ => none

/-- Look up an account in the store a store-updating controller returned. -/
def findInResult (r : Except AppErr (List Account)) (i : Nat) : Option Account :=
  match r with
  | Except.ok s => findById s i
  | Except.error _ => none

/-- The updated store a successful store-updating controller left behind. -/
def okStoreOf (r : Except AppErr (List Account)) : List Account :=
  match r with
  | Except.ok s => s
  | Except.error _ => []

/-- The refresh token a successful signIn response carries. -/
def signInRefreshTok (r : Except AppErr SignInResult) : Option RToken :=
  match r with
  | Except.ok x => some x.refreshToken
  | Except.error _ => none

/-- The access token a successful signIn response carries. -/
def signInAccessTok (r : Except AppErr SignInResult) : Option AToken :=
  match r with
  | Except.ok x => some x.accessToken
  | Except.error _ => none

/-- The store a successful signIn left behind. -/
def signInStoreOf (r : Except AppErr SignInResult) : Option (List Account) :=
  match r with
  | Except.ok x => some x.store
  | Except.error _ => none

/-- The cookies a successful signIn set. -/
def signInCookiesOf (r : Except AppErr SignInResult) : Option SetCookies :=
  match r with
  | Except.ok x => some x.cookies
  | Except.error _ => none

/-- The refreshTokens set of one stored account after a signUp outcome. -/
def signUpAccountTokens (r : Except AppErr SignUpResult) (i : Nat) : Option (List RToken) :=
  match r with
  | Except.ok res => (findById res.store i).map Account.refreshTokens
  | Except.error _ => none

/-- The refresh token a successful signUp response returned. -/
def signUpIssuedRefresh (r : Except AppErr SignUpResult) : Option RToken :=
  match r with
  | Except.ok res => some res.refreshToken
  | Except.error _ => none

/-- A minimal stored account used by the concrete scenarios below. -/
def mkAccount (i : Nat) (em un pw : String) : Account :=
  { id := i
    email := em
    password := bcryptHash pw
    username := un
    firstName := "A"
    lastName := "B"
    phoneNumber := none
    dateOfBirth := none
    farmerType := "individual"
    farmSize := none
    primaryCrops := none
    farmLocation := none
    farmingExperience := none
    educationLevel := none
    preferredLanguage := "en"
    preferences := signUpPreferences
    subscriptionType := SubscriptionType.free
    subscriptionExpiry := none
    apiUsage := []
    isEmailVerified := false
    isPhoneVerified := false
    isFarmerVerified := false
    lastLogin := none
    loginHistory := []
    refreshTokens := []
    passwordResetToken := none
    passwordResetExpiry := none }

/-- Concrete scenario constants. -/
def emailA : String := "a@x.com"

def emailB : String := "b@x.com"

def userA : String := "a1"

def pwA : String := "Password1"

def pwWrong : String := "Wrong1"

def pwNew : String := "NewPassword1"

def wLogin : LoginEntry := ⟨0, "ip", "ua", "unknown"⟩

def wMonth : String := "2025-10"

/-- A free-tier baseline account. -/
def acctA : Account := mkAccount 1 emailA userA pwA

/-- A refresh token for acctA issued at second 100. -/
def c1Tok : RToken := (generateTokens acctA 100).2

/-- The account with that refresh token live in its refreshTokens set. -/
def c1Account : Account := { acctA with refreshTokens := [c1Tok] }

/-- A correctly signed access token whose exp has passed at clock 1000. -/
def c3AccessExpired : AToken :=
  ⟨1, emailA, userA, "individual", SubscriptionType.free, 0, 900, jwtSecret⟩

/-- A correctly signed refresh token whose exp has passed at clock 604800. -/
def c3RefreshExpired : RToken :=
  ⟨1, emailA, 0, 604800, jwtRefreshSecret⟩

/-- Interleaving of two increment requests that loses an update: both read the
document before either writes back. -/
def c8LostSched : List RaceStep :=
  [RaceStep.read 0, RaceStep.read 1, RaceStep.write 0, RaceStep.write 1]

/-- Serialized execution of the same two increment requests. -/
def c8SerialSched : List RaceStep :=
  [RaceStep.read 0, RaceStep.write 0, RaceStep.read 1, RaceStep.write 1]

def w2Token : String := "resettok"

/-- An account whose reset token matches but expired at second 1000. -/
def w2Expired : Account :=
  { mkAccount 2 emailB "b1" pwA with
    passwordResetToken := some w2Token
    passwordResetExpiry := some 1000 }

/-- An account whose reset token matches and is live until second 5000. -/
def w2Live : Account :=
  { mkAccount 3 emailB "b1" pwA with
    passwordResetToken := some w2Token
    passwordResetExpiry := some 5000 }

/-- A valid sign-up payload whose email and username are fresh. -/
def w5Data : SignUpData :=
  ⟨emailA, pwA, userA, "A", "B", none, none, "individual", none, none, none,
   none, none, "en", SubscriptionType.free⟩

def w5Store : List Account := [mkAccount 7 emailB "b1" pwA]

/-- A validated profile update touching only the first name. -/
def w10Data : UpdateProfileData :=
  ⟨some ("NewName"), none, none, none, none, none, none, none, none, none, none, none⟩

end SIH


namespace SIH

/-- Looking up the updated id after findByIdAndUpdate hits the rewritten
document: both operations stop at the first id match. The update must preserve
the id, as every update in the controllers does. -/
theorem findById_updateById (store : List Account) (i : Nat) (f : Account → Account)
    (hf : ∀ a : Account, (f a).id = a.id) :
    findById (updateById store i f) i = (findById store i).map f := by
  induction store with
  | nil => rfl
  | cons x xs ih =>
    by_cases hx : x.id = i
    · have h1 : updateById (x :: xs) i f = f x :: xs := by
        simp [updateById, hx]
      have h2 : findById (f x :: xs) i = some (f x) := by
        unfold findById
        exact List.find?_cons_of_pos _ (by simp [hf, hx])
      have h3 : findById (x :: xs) i = some x := by
        unfold findById
        exact List.find?_cons_of_pos _ (by simp [hx])
      rw [h1, h2, h3]
      rfl
    · have h1 : updateById (x :: xs) i f = x :: updateById xs i f := by
        simp [updateById, hx]
      have h2 : findById (x :: xs) i = findById xs i := by
        unfold findById
        exact List.find?_cons_of_neg _ (by simp [hx])
      have h4 : findById (x :: updateById xs i f) i = findById (updateById xs i f) i := by
        unfold findById
        exact List.find?_cons_of_neg _ (by simp [hx])
      rw [h1, h4, h2, ih]

/-- C3: a well-formed, correctly signed access token past its expiry makes the
access gate fail with INVALID_ACCESS_TOKEN rather than the ACCESS_TOKEN_EXPIRED
code the spec names, because the catch in authenticateToken tests instanceof
JsonWebTokenError before instanceof TokenExpiredError while the latter is a
subclass of the former; the refresh gate likewise yields INVALID_REFRESH_TOKEN
for a well-signed expired refresh token instead of REFRESH_TOKEN_EXPIRED. This
theorem evaluates the embedded middleware at such expired tokens. -/
theorem claim_C3 :
    errCodeOf (authenticateToken [acctA] (some c3AccessExpired) 1000) =
      some ("INVALID_ACCESS_TOKEN") ∧
    errCodeOf (authenticateRefreshToken [acctA] (some c3RefreshExpired) 604800) =
      some ("INVALID_REFRESH_TOKEN") ∧
    ("INVALID_ACCESS_TOKEN" : String) ≠ "ACCESS_TOKEN_EXPIRED" ∧
    ("INVALID_REFRESH_TOKEN" : String) ≠ "REFRESH_TOKEN_EXPIRED" := by
  decide

/-- C4: sign-in with a wrong password on an existing account and sign-in with a
nonexistent email produce the identical external response value: the same
INVALID_CREDENTIALS error code, the same message and HTTP status 401. -/
theorem claim_C4 (store : List Account) (e1 p1 e2 p2 : String) (rm1 rm2 : Bool)
    (now1 now2 : Nat) (l1 l2 : LoginEntry) (u : Account)
    (h1 : store.find? (fun v => v.email == e1) = none)
    (h2 : store.find? (fun v => v.email == e2) = some u)
    (h3 : bcryptCompare p2 u.password = false) :
    signIn store e1 p1 rm1 now1 l1 = Except.error invalidCredentialsErr ∧
    signIn store e2 p2 rm2 now2 l2 = Except.error invalidCredentialsErr ∧
    invalidCredentialsErr.errorCode = "INVALID_CREDENTIALS" ∧
    invalidCredentialsErr.status = 401 := by
  refine ⟨?_, ?_, rfl, rfl⟩
  · simp [signIn, h1]
  · simp [signIn, h2, h3]

/-- Witness for C4 at a concrete store: the account for emailA exists with
password pwA; emailB is absent; both failing runs return the same error. -/
theorem claim_C4_witness :
    [acctA].find? (fun v => v.email == emailB) = none ∧
    bcryptCompare pwWrong acctA.password = false ∧
    signIn [acctA] emailB pwA true 5 wLogin = Except.error invalidCredentialsErr ∧
    signIn [acctA] emailA pwWrong false 6 wLogin = Except.error invalidCredentialsErr := by
  have h := claim_C4 [acctA] emailB pwA emailA pwWrong true false 5 6 wLogin wLogin acctA
    (by rfl) (by rfl) (by rfl)
  exact ⟨by rfl, by rfl, h.1, h.2.1⟩

/-- C2: the failure half of the claim holds on the code — with no account
carrying an equal passwordResetToken and a strictly future passwordResetExpiry
the operation fails INVALID_RESET_TOKEN, also when the token string matches
exactly but is past its expiry — but the success half does not: the update
passes passwordResetToken and passwordResetExpiry as undefined, Mongoose 6 and
later strips undefined keys from updates, so the code replaces the password
hash and clears refreshTokens while the stored reset token and expiry survive,
and the supposedly single-use token can be presented again successfully until
its expiry. This theorem evaluates the embedded controller at the failing
input: after a successful reset at clock 2000 the account with id 3 still
carries the reset token and its expiry 5000, and a second reset with the same
token at clock 2500 succeeds again. -/
theorem claim_C2 :
    errCodeOf (resetPassword [w2Expired] w2Token pwNew 2000) = some ("INVALID_RESET_TOKEN") ∧
    exOk (resetPassword [w2Live] w2Token pwNew 2000) = true ∧
    (findInResult (resetPassword [w2Live] w2Token pwNew 2000) 3).map Account.password
      = some (bcryptHash pwNew) ∧
    (findInResult (resetPassword [w2Live] w2Token pwNew 2000) 3).map Account.refreshTokens
      = some ([] : List RToken) ∧
    (findInResult (resetPassword [w2Live] w2Token pwNew 2000) 3).map Account.passwordResetToken
      = some (some w2Token) ∧
    (findInResult (resetPassword [w2Live] w2Token pwNew 2000) 3).map Account.passwordResetExpiry
      = some (some 5000) ∧
    exOk (resetPassword (okStoreOf (resetPassword [w2Live] w2Token pwNew 2000)) w2Token pwNew 2500)
      = true := by
  decide

/-- C6: change-password fails with INVALID_CURRENT_PASSWORD whenever the
supplied current password does not match the stored hash; on success the stored
account carries the hash of the new password and an empty refreshTokens set, so
every refresh token live before the change is absent afterwards. -/
theorem claim_C6 (store : List Account) (userId : Nat) (cur new : String) (u : Account)
    (hfind : findById store userId = some u) :
    (bcryptCompare cur u.password = false →
      changePassword store userId cur new =
        Except.error ⟨"Current password is incorrect", 400, "INVALID_CURRENT_PASSWORD"⟩) ∧
    (bcryptCompare cur u.password = true →
      exOk (changePassword store userId cur new) = true ∧
      (findInResult (changePassword store userId cur new) userId).map Account.password
        = some (bcryptHash new) ∧
      (findInResult (changePassword store userId cur new) userId).map Account.refreshTokens
        = some ([] : List RToken)) := by
  constructor
  · intro hpw
    simp [changePassword, hfind, hpw]
  · intro hpw
    have hupd := findById_updateById store userId
      (fun v => { v with password := bcryptHash new, refreshTokens := [] }) (fun a => rfl)
    rw [hfind] at hupd
    refine ⟨?_, ?_, ?_⟩ <;>
      simp [changePassword, hfind, hpw, findInResult, exOk, hupd]

/-- Witness for C6: on the concrete account with password pwA, the wrong current
password fails with INVALID_CURRENT_PASSWORD and the right one empties the
refreshTokens set and installs the new hash. -/
theorem claim_C6_witness :
    bcryptCompare pwWrong acctA.password = false ∧
    changePassword [acctA] 1 pwWrong pwNew =
      Except.error ⟨"Current password is incorrect", 400, "INVALID_CURRENT_PASSWORD"⟩ ∧
    bcryptCompare pwA acctA.password = true ∧
    (findInResult (changePassword [acctA] 1 pwA pwNew) 1).map Account.password
      = some (bcryptHash pwNew) ∧
    (findInResult (changePassword [acctA] 1 pwA pwNew) 1).map Account.refreshTokens
      = some ([] : List RToken) := by
  have h := claim_C6 [acctA] 1 pwWrong pwNew acctA (by rfl)
  have h2 := claim_C6 [acctA] 1 pwA pwNew acctA (by rfl)
  exact ⟨by rfl, h.1 (by rfl), by rfl, (h2.2 (by rfl)).2.1, (h2.2 (by rfl)).2.2⟩

/-- C8: the increment implementation is an in-memory read of the whole user
document followed by a write-back, so two concurrent increments whose reads both
precede the writes finish with a counter of 1 where the claim demands 2; the
serialized schedule of the same two requests does reach 2. -/
theorem claim_C8 :
    (currentApiUsage (runRace wMonth ApiType.cropRecommendations acctA 2 c8LostSched)
      wMonth).cropRecommendations = 1 ∧
    (currentApiUsage (runRace wMonth ApiType.cropRecommendations acctA 2 c8SerialSched)
      wMonth).cropRecommendations = 2 ∧
    (1 : Nat) ≠ 2 := by
  decide

/-- C10: a validated update-profile payload can only carry the profile fields of
the schema, and the controller applies a set of exactly those fields, so the
email, username, password hash, refreshTokens set, subscription tier and
apiUsage records of the stored account are unchanged by the operation. -/
theorem claim_C10 (store : List Account) (userId : Nat) (d : UpdateProfileData) (u : Account)
    (hfind : findById store userId = some u) :
    exOk (updateProfile store userId d) = true ∧
    (findInResult (updateProfile store userId d) userId).map Account.email = some u.email ∧
    (findInResult (updateProfile store userId d) userId).map Account.username = some u.username ∧
    (findInResult (updateProfile store userId d) userId).map Account.password = some u.password ∧
    (findInResult (updateProfile store userId d) userId).map Account.refreshTokens
      = some u.refreshTokens ∧
    (findInResult (updateProfile store userId d) userId).map Account.subscriptionType
      = some u.subscriptionType ∧
    (findInResult (updateProfile store userId d) userId).map Account.apiUsage
      = some u.apiUsage := by
  have hupd := findById_updateById store userId (fun v => applyProfileSet v d) (fun a => rfl)
  rw [hfind] at hupd
  have hres : updateProfile store userId d =
      Except.ok (updateById store userId (fun v => applyProfileSet v d)) := by
    simp [updateProfile, hfind]
  refine ⟨by rw [hres]; rfl, ?_, ?_, ?_, ?_, ?_, ?_⟩ <;>
    · rw [hres]
      dsimp only [findInResult]
      rw [hupd]
      rfl

/-- Witness for C10 at the concrete account and a first-name-only update. -/
theorem claim_C10_witness :
    findById [acctA] 1 = some acctA ∧
    (findInResult (updateProfile [acctA] 1 w10Data) 1).map Account.email = some acctA.email ∧
    (findInResult (updateProfile [acctA] 1 w10Data) 1).map Account.password = some acctA.password ∧
    (findInResult (updateProfile [acctA] 1 w10Data) 1).map Account.refreshTokens
      = some acctA.refreshTokens ∧
    (findInResult (updateProfile [acctA] 1 w10Data) 1).map Account.apiUsage
      = some acctA.apiUsage := by
  have h := claim_C10 [acctA] 1 w10Data acctA (by rfl)
  exact ⟨by rfl, h.2.1, h.2.2.2.1, h.2.2.2.2.1, h.2.2.2.2.2.2⟩

/-- One increment on an account with no usage entry for the month pushes the
fresh entry seeded at 1 with the free-tier ceilings. -/
theorem incrCrop_apiUsage_nil (v : Account) (m : String)
    (h : v.apiUsage = []) (ht : v.subscriptionType = SubscriptionType.free) :
    (incrCrop m v).apiUsage = [⟨m, 1, 0, 0, ⟨10, 5, 50⟩⟩] ∧
    (incrCrop m v).subscriptionType = SubscriptionType.free := by
  constructor
  · simp [incrCrop, incrementAPIUsage, h, freshUsageEntry, currentApiUsage, ht, virtualMaxLimits]
  · simp [incrCrop, incrementAPIUsage, h, ht]

/-- One increment on an account whose only usage entry is for the month bumps
that counter in place and keeps the stored ceilings. -/
theorem incrCrop_apiUsage_cons (v : Account) (m : String) (k : Nat) (lims : MaxLimits)
    (h : v.apiUsage = [⟨m, k, 0, 0, lims⟩]) :
    (incrCrop m v).apiUsage = [⟨m, k + 1, 0, 0, lims⟩] ∧
    (incrCrop m v).subscriptionType = v.subscriptionType := by
  constructor
  · simp [incrCrop, incrementAPIUsage, h, List.findIdx?_cons, modifyAt, UsageEntry.bump]
  · simp [incrCrop, incrementAPIUsage, h, List.findIdx?_cons]

/-- Iterating the cropRecommendations increment N times in one month on a fresh
free-tier account leaves a single usage entry with counter N and the free
ceilings, and does not touch the tier. -/
theorem iterate_incrCrop_free (u : Account) (m : String)
    (htier : u.subscriptionType = SubscriptionType.free) (husage : u.apiUsage = []) :
    ∀ N : Nat, ((incrCrop m)^[N] u).subscriptionType = SubscriptionType.free ∧
      ((incrCrop m)^[N] u).apiUsage =
        (if N = 0 then [] else [⟨m, N, 0, 0, ⟨10, 5, 50⟩⟩]) := by
  intro N
  induction N with
  | zero => simpa using ⟨htier, husage⟩
  | succ n ih =>
    obtain ⟨ih1, ih2⟩ := ih
    rw [Function.iterate_succ_apply']
    by_cases hn : n = 0
    · subst hn
      rw [if_pos rfl] at ih2
      have h := incrCrop_apiUsage_nil ((incrCrop m)^[0] u) m ih2 ih1
      exact ⟨h.2, by rw [h.1]; simp⟩
    · rw [if_neg hn] at ih2
      have h := incrCrop_apiUsage_cons ((incrCrop m)^[n] u) m n ⟨10, 5, 50⟩ ih2
      refine ⟨by rw [h.2]; exact ih1, ?_⟩
      rw [h.1, if_neg (Nat.succ_ne_zero n)]

/-- C7: hasExceeded compares the current-month counter against the ceiling in
effect, and for a free-tier account with no prior usage, N increments of
cropRecommendations within one month leave the gate open while N is below the
free ceiling of 10 and closed for every N of at least 10. -/
theorem claim_C7 (u : Account) (m : String)
    (htier : u.subscriptionType = SubscriptionType.free)
    (husage : u.apiUsage = []) :
    (∀ v : Account, ∀ mo : String, ∀ t : ApiType,
        hasExceededAPILimit v mo t =
          decide ((currentApiUsage v mo).maxLimits.limit t ≤ (currentApiUsage v mo).counter t)) ∧
    (∀ N : Nat,
        hasExceededAPILimit ((incrCrop m)^[N] u) m ApiType.cropRecommendations
          = decide (10 ≤ N)) := by
  constructor
  · intro v mo t
    rfl
  · intro N
    obtain ⟨h1, h2⟩ := iterate_incrCrop_free u m htier husage N
    by_cases hN : N = 0
    · subst hN
      simp [hasExceededAPILimit, currentApiUsage, husage, htier, virtualMaxLimits,
        MaxLimits.limit, UsageEntry.counter]
    · rw [if_neg hN] at h2
      have hfound : ((incrCrop m)^[N] u).apiUsage.find? (fun e => e.month == m)
          = some ⟨m, N, 0, 0, ⟨10, 5, 50⟩⟩ := by
        rw [h2]
        exact List.find?_cons_of_pos _ (by simp)
      simp [hasExceededAPILimit, currentApiUsage, hfound, MaxLimits.limit, UsageEntry.counter]

/-- Witness for C7 on the concrete free account with no usage: after 9
increments in the month the gate is open, after 10 it is closed. -/
theorem claim_C7_witness :
    acctA.subscriptionType = SubscriptionType.free ∧
    acctA.apiUsage = [] ∧
    hasExceededAPILimit ((incrCrop wMonth)^[9] acctA) wMonth ApiType.cropRecommendations = false ∧
    hasExceededAPILimit ((incrCrop wMonth)^[10] acctA) wMonth ApiType.cropRecommendations = true := by
  have h := claim_C7 acctA wMonth (by rfl) (by rfl)
  refine ⟨by rfl, by rfl, ?_, ?_⟩
  · have h9 := h.2 9
    simpa using h9
  · have h10 := h.2 10
    simpa using h10

/-- C9: on the same successful credentials, the rememberMe flag changes nothing
but the refresh-cookie max-age, which becomes 30 days instead of 7 days; the
issued tokens, the resulting store, the access cookie and every other refresh
cookie attribute coincide across the two runs, and the signed refresh token
carries the fixed 7-day expiry claim in both. -/
theorem claim_C9 (store : List Account) (email password : String) (now : Nat)
    (l : LoginEntry) (u : Account)
    (hfind : store.find? (fun v => v.email == email) = some u)
    (hpw : bcryptCompare password u.password = true) :
    exOk (signIn store email password true now l) = true ∧
    exOk (signIn store email password false now l) = true ∧
    signInRefreshTok (signIn store email password true now l) =
      signInRefreshTok (signIn store email password false now l) ∧
    (signInRefreshTok (signIn store email password true now l)).map RToken.exp =
      some (now + refreshExpirySeconds) ∧
    refreshExpirySeconds = 7 * 24 * 60 * 60 ∧
    signInAccessTok (signIn store email password true now l) =
      signInAccessTok (signIn store email password false now l) ∧
    signInStoreOf (signIn store email password true now l) =
      signInStoreOf (signIn store email password false now l) ∧
    (signInCookiesOf (signIn store email password true now l)).map SetCookies.accessCookie =
      (signInCookiesOf (signIn store email password false now l)).map SetCookies.accessCookie ∧
    (signInCookiesOf (signIn store email password true now l)).map
        (fun c => c.refreshCookie.maxAgeMs) = some (30 * 24 * 60 * 60 * 1000) ∧
    (signInCookiesOf (signIn store email password false now l)).map
        (fun c => c.refreshCookie.maxAgeMs) = some (7 * 24 * 60 * 60 * 1000) ∧
    (signInCookiesOf (signIn store email password true now l)).map
        (fun c => c.refreshCookie.httpOnly) =
      (signInCookiesOf (signIn store email password false now l)).map
        (fun c => c.refreshCookie.httpOnly) ∧
    (signInCookiesOf (signIn store email password true now l)).map
        (fun c => c.refreshCookie.secure) =
      (signInCookiesOf (signIn store email password false now l)).map
        (fun c => c.refreshCookie.secure) ∧
    (signInCookiesOf (signIn store email password true now l)).map
        (fun c => c.refreshCookie.sameSiteStrict) =
      (signInCookiesOf (signIn store email password false now l)).map
        (fun c => c.refreshCookie.sameSiteStrict) := by
  refine ⟨?_, ?_, ?_, ?_, rfl, ?_, ?_, ?_, ?_, ?_, ?_, ?_, ?_⟩ <;>
    simp [signIn, hfind, hpw, exOk, signInRefreshTok, signInAccessTok, signInStoreOf,
      signInCookiesOf, generateTokens, rememberMeCookies, setTokenCookies]

/-- Witness for C9 at the concrete account: both runs issue the same refresh
token with the 7-day expiry claim while the cookie max-ages differ. -/
theorem claim_C9_witness :
    bcryptCompare pwA acctA.password = true ∧
    signInRefreshTok (signIn [acctA] emailA pwA true 50 wLogin) =
      signInRefreshTok (signIn [acctA] emailA pwA false 50 wLogin) ∧
    (signInRefreshTok (signIn [acctA] emailA pwA true 50 wLogin)).map RToken.exp =
      some (50 + refreshExpirySeconds) ∧
    (signInCookiesOf (signIn [acctA] emailA pwA true 50 wLogin)).map
      (fun c => c.refreshCookie.maxAgeMs) = some (30 * 24 * 60 * 60 * 1000) ∧
    (signInCookiesOf (signIn [acctA] emailA pwA false 50 wLogin)).map
      (fun c => c.refreshCookie.maxAgeMs) = some (7 * 24 * 60 * 60 * 1000) := by
  have h := claim_C9 [acctA] emailA pwA 50 wLogin acctA (by rfl) (by rfl)
  obtain ⟨-, -, h3, h4, -, -, -, -, h9, h10, -, -, -⟩ := h
  exact ⟨by rfl, h3, h4, h9, h10⟩

/-- Two successive findByIdAndUpdate calls on a freshly appended document, then
a findById of it: the existing accounts all miss the id, so both updates and the
lookup land on the appended document. The updates must preserve the id, as the
signUp updates do. -/
theorem findById_updateById2_append (store : List Account) (x : Account) (i : Nat)
    (f g : Account → Account) (h : ∀ u ∈ store, u.id ≠ i) (hx : x.id = i)
    (hf : (f x).id = i) (hg : (g (f x)).id = i) :
    findById (updateById (updateById (store ++ [x]) i f) i g) i = some (g (f x)) := by
  induction store with
  | nil =>
    have h1 : updateById [x] i f = [f x] := by simp [updateById, hx]
    have h2 : updateById [f x] i g = [g (f x)] := by simp [updateById, hf]
    rw [List.nil_append, h1, h2]
    unfold findById
    exact List.find?_cons_of_pos _ (by simp [hg])
  | cons y ys ih =>
    have hy : y.id ≠ i := h y (List.mem_cons_self y ys)
    have hby : (y.id == i) = false := by simpa using hy
    have hstep1 : updateById (y :: (ys ++ [x])) i f = y :: updateById (ys ++ [x]) i f := by
      simp [updateById, hby]
    have hstep2 : updateById (y :: updateById (ys ++ [x]) i f) i g
        = y :: updateById (updateById (ys ++ [x]) i f) i g := by
      simp [updateById, hby]
    rw [List.cons_append, hstep1, hstep2]
    unfold findById at ih ⊢
    rw [List.find?_cons_of_neg _ (by simp [hy])]
    exact ih (fun u hu => h u (List.mem_cons_of_mem y hu))

/-- C5: for a sign-up whose email and username clash with no stored account and
whose generated id is fresh, the operation succeeds and the stored account ends
with a refreshTokens set holding exactly the one refresh token the response
returned. -/
theorem claim_C5 (store : List Account) (d : SignUpData) (newId now : Nat) (login : LoginEntry)
    (hemail : ∀ u ∈ store, u.email ≠ d.email)
    (husername : ∀ u ∈ store, u.username ≠ d.username)
    (hid : ∀ u ∈ store, u.id ≠ newId) :
    exOk (signUp store d newId now login) = true ∧
    signUpAccountTokens (signUp store d newId now login) newId =
      (signUpIssuedRefresh (signUp store d newId now login)).map (fun t => [t]) := by
  have hconf : store.find? (fun u => u.email == d.email || u.username == d.username) = none := by
    rw [List.find?_eq_none]
    intro x hx
    simp [hemail x hx, husername x hx]
  have hsign : signUp store d newId now login = signUpCreate store d newId now login := by
    simp [signUp, hconf]
  have hfinal := findById_updateById2_append store (createAccount d newId) newId
    (fun u => { u with refreshTokens :=
      u.refreshTokens ++ [(generateTokens (createAccount d newId) now).2] })
    (fun u => { u with loginHistory := u.loginHistory ++ [login], lastLogin := some now })
    hid rfl rfl rfl
  constructor
  · rw [hsign]
    rfl
  · rw [hsign]
    dsimp only [signUpCreate, signUpAccountTokens, signUpIssuedRefresh]
    rw [hfinal]
    rfl

/-- Witness for C5 at a concrete fresh sign-up over a one-account store. -/
theorem claim_C5_witness :
    (∀ u ∈ w5Store, u.email ≠ w5Data.email) ∧
    exOk (signUp w5Store w5Data 9 100 wLogin) = true ∧
    signUpAccountTokens (signUp w5Store w5Data 9 100 wLogin) 9 =
      (signUpIssuedRefresh (signUp w5Store w5Data 9 100 wLogin)).map (fun t => [t]) := by
  have h := claim_C5 w5Store w5Data 9 100 wLogin (by decide) (by decide) (by decide)
  exact ⟨by decide, h.1, h.2⟩

/-- C1: the claimed rotation never happens on the code. On every refresh whose
presented token verifies cryptographically and is a member of the live
refreshTokens set, the rotation update places pull and push on the same
refreshTokens path, MongoDB rejects it, and the endpoint answers the wrapped
500 DATABASE_ERROR instead of the claimed success: nothing is removed from or
added to the set, the presented token still passes the refresh gate afterwards,
and a later refresh presenting it reaches the same DATABASE_ERROR rather than
the claimed INVALID_REFRESH_TOKEN revocation outcome. This theorem evaluates
the embedded controller and gate at such a live token. -/
theorem claim_C1 :
    errCodeOf (refreshTokenController [c1Account] (some c1Tok) 200) = some ("DATABASE_ERROR") ∧
    exOk (refreshTokenController [c1Account] (some c1Tok) 200) = false ∧
    exOk (authenticateRefreshToken [c1Account] (some c1Tok) 300) = true ∧
    errCodeOf (refreshTokenController [c1Account] (some c1Tok) 400) = some ("DATABASE_ERROR") ∧
    ("DATABASE_ERROR" : String) ≠ "INVALID_REFRESH_TOKEN" := by
  decide

end SIH
